import Mathlib

/-!
# Customer onboarding workflow: a shallow embedding

The Go sources embedded here are

* `caf.go`       : the `models.Caf` and `models.ZoneConfig` rows,
* `customer.go`  : `CafService.ValidateAndInsertCaf` and
                   `IntegrationService.SendPreActivation`,
* `flowable.go`  : the delegate `Step1ProcessKafkaCAF`, the Kafka consumer
                   loop, the two HTTP handlers and the Flowable REST calls.

The loop of `kafka-consumer.go` hands every decoded message to
`TriggerProcessStart`, whose body is not part of the sources; it is not
embedded.

Conventions.

* A Go `string` is a Lean `String`; `interface{}` is `Value`;
  `map[string]interface{}` is an association list (`GoMap`), a nil map being
  the empty list (both answer every index with `nil`).
* The relational store is a list of rows per table; the process engine and the
  other remote services are answer functions that may look at the history of
  requests made so far, and every request made is appended to that history.
* A failed type assertion `x.(T)` is a Go panic; it is an outcome of its own.
-/

namespace Onboarding

/-! ## Go values -/

/-- Dynamic values held in an `interface{}`: the shapes `encoding/json` decodes
into (`nil`, `bool`, number, `string`, slice, map) and the `uint` primary key
the delegates store under `"cafId"`. A JSON number is a `float64` in Go; no
function here asserts a value to be a number, so only its being none of the
other shapes matters and it is kept as an integer. -/
inductive Value where
  | nil
  | bool (b : Bool)
  | str (s : String)
  | uint (n : Nat)
  | num (x : Int)
  | arr (xs : List Value)
  | map (m : List (String × Value))

/-- The Go type `map[string]interface{}` (also `gin.H`). -/
abbrev GoMap := List (String × Value)

/-- Map indexing `m[k]`: the zero value `nil` when the key is absent. -/
def mapIndex (m : GoMap) (k : String) : Value :=
  match m.lookup k with
  | some v => v
  | none => Value.nil

/-- Map assignment `m[k] = v`. -/
def mapSet (m : GoMap) (k : String) (v : Value) : GoMap :=
  (k, v) :: m.filter (fun kv => kv.1 != k)

/-- The type assertion `v.(string)`; `none` is the panic. -/
def assertString : Value → Option String
  | Value.str s => some s
  | _ => none

/-- The type assertion `v.(bool)`; `none` is the panic. -/
def assertBool : Value → Option Bool
  | Value.bool b => some b
  | _ => none

/-- The type assertion `v.(uint)`; `none` is the panic. -/
def assertUint : Value → Option Nat
  | Value.uint n => some n
  | _ => none

/-- The type assertion `v.(map[string]interface{})`; `none` is the panic. -/
def assertMap : Value → Option GoMap
  | Value.map m => some m
  | _ => none

/-- The type assertion `v.([]interface{})`; `none` is the panic. -/
def assertSlice : Value → Option (List Value)
  | Value.arr xs => some xs
  | _ => none

/-- Go's `unicode.ToUpper` on the letters whose upper case is an ASCII letter:
`a`-`z`, the dotless i (U+0131, upper case `I`) and the long s (U+017F, upper
case `S`). Other characters are left as they are. -/
def toUpperRune (c : Char) : Char :=
  if c = Char.ofNat 0x131 then 'I'
  else if c = Char.ofNat 0x17F then 'S'
  else c.toUpper

/-- Go's `strings.ToUpper`, through `toUpperRune`: exact on ASCII text (route
targets are ASCII path segments) and wherever only the ASCII letters of the
result matter. -/
def ToUpper (s : String) : String :=
  ⟨s.data.map toUpperRune⟩

/-- Go's `strings.Contains`, on the character lists. -/
def Contains (s sub : String) : Bool :=
  s.data.tails.any (fun t => sub.data.isPrefixOf t)

/-- The verb `%d` of `fmt.Sprintf` on a signed integer. -/
def fmtD (n : Int) : String :=
  toString n

/-! ## `caf.go` -/

namespace models

/-- Row type `models.Caf`. The timestamps `CreatedAt` and `UpdatedAt` are
written by the ORM alone and read by no function of the repository; they are
left out of the row. -/
structure Caf where
  ID : Nat := 0
  CafRefNo : String := ""
  Status : String := ""
  ZoneCode : String := ""
  PlanCode : String := ""
  IsUsim : Bool := false
  Imsi : String := ""
  PermanentImsi : String := ""
  PosHrno : String := ""
  ProcessInstanceId : String := ""
  deriving DecidableEq, Repr

/-- Row type `models.ZoneConfig`. -/
structure ZoneConfig where
  ZoneCode : String := ""
  PreactMode : String := ""
  TvMode : String := ""
  FinalactMode : String := ""
  CommissionMode : String := ""
  deriving DecidableEq, Repr

end models

/-! ## The store behind `*gorm.DB`, as `customer.go` uses it -/

/-- Tables `cafs` and `zone_configs`, and the next value of the `cafs` primary
key sequence. -/
structure DB where
  cafs : List models.Caf := []
  zones : List models.ZoneConfig := []
  seq : Nat := 1

/-- The call `db.First(&caf, id)`: the row with that primary key; the
destination keeps its zero value when there is none (the error is dropped by
the caller). -/
def firstCaf (db : DB) (id : Nat) : models.Caf :=
  match db.cafs.find? (fun c => c.ID == id) with
  | some c => c
  | none => {}

/-- The call `db.Where("zone_code = ?", z).First(&config)`: zero value when no
row matches. -/
def firstZone (db : DB) (z : String) : models.ZoneConfig :=
  match db.zones.find? (fun c => c.ZoneCode == z) with
  | some c => c
  | none => {}

/-- The call `db.Create(&caf)`: refused when `CafRefNo` (tagged `unique`) is
already taken; otherwise the row is stored under a fresh primary key,
which is written back to the struct. -/
def createCaf (db : DB) (caf : models.Caf) : Option (DB × models.Caf) :=
  if db.cafs.any (fun c => c.CafRefNo == caf.CafRefNo) then none
  else
    let row := { caf with ID := db.seq }
    some ({ db with cafs := db.cafs ++ [row], seq := db.seq + 1 }, row)

/-- The call `db.Save(&caf)` on a struct whose primary key is set: the row with
that key is overwritten. -/
def saveCaf (db : DB) (caf : models.Caf) : DB :=
  { db with cafs := db.cafs.map (fun c => if c.ID == caf.ID then caf else c) }

/-! ## `customer.go`: correlation id and pre-activation routing -/

/-- Line 61 of `customer.go`: `fmt.Sprintf("PRE-%s-%d", ref, now)`, with `now`
the value of `time.Now().Unix()`. -/
def corrId (ref : String) (now : Int) : String :=
  "PRE-" ++ ref ++ "-" ++ fmtD now

/-- What `SendPreActivation` hands to the outside: the argument of
`callTelcoBillingAPI` or the arguments of `insertTelcoStagingTable` (both are
remote, their returned error is passed on unchanged). -/
inductive Outbound where
  | callTelcoBillingAPI (payload : GoMap)
  | insertTelcoStagingTable (caf : models.Caf) (corrId : String)

/-- The method `IntegrationService.SendPreActivation`; `none` is the panic of
`vars["cafId"].(uint)`. -/
def SendPreActivation (db : DB) (vars : GoMap) (now : Int) : Option Outbound :=
  match assertUint (mapIndex vars "cafId") with
  | none => none
  | some cafId =>
    let caf := firstCaf db cafId
    let config := firstZone db caf.ZoneCode
    let corr := corrId caf.CafRefNo now
    if config.PreactMode = "API" then
      some (Outbound.callTelcoBillingAPI
        [("cafRefNo", Value.str caf.CafRefNo),
         ("imsi", Value.str caf.PermanentImsi),
         ("callbackUrl", Value.str ("http://yourapp/callback/preact/" ++ corr))])
    else
      some (Outbound.insertTelcoStagingTable caf corr)

/-! ## Remote services -/

/-- A request that leaves the program: the HTTP calls of `flowable.go`, and
the two remote calls of `customer.go` (`flowable.Client.StartProcessInstance`
and `callPyIOTA`, whose bodies are outside the repository). -/
inductive Request where
  | httpPost (url : String) (body : Value)
  | httpGet (url : String)
  | startProcessInstance (key : String) (vars : GoMap)
  | callPyIOTA (planCode : String)

/-- The answers of the outside world. Each answer may depend on the requests
made so far.

* `post`: the error of `http.Post`, or the response body decoded into a map
  (the empty map when it does not decode to an object);
* `get`: the error of `http.Get`, or what `getJSON` reads from the body;
* `startProcessInstance`, `callPyIOTA`: error or returned string;
* `GetTaskForCAF`: the pending task id for a reference, `""` when none (the
  method is called in `flowable.go` and defined outside the sources);
* `jsonUnmarshal`: `json.Unmarshal` into a `map[string]interface{}`, `none`
  when it reports an error (the destination then stays nil). -/
structure Env where
  post : List Request → String → Value → Except String GoMap
  get : List Request → String → Except String Value
  startProcessInstance : List Request → String → GoMap → Except String String
  callPyIOTA : List Request → String → Except String String
  GetTaskForCAF : List Request → String → String
  jsonUnmarshal : String → Option GoMap

/-- How a Go function call ends: a normal return with a nil error, a returned
error, or a panic. -/
inductive Outcome (α : Type) where
  | ok (a : α)
  | err (e : String)
  | panic

/-! ## `customer.go`: `ValidateAndInsertCaf` -/

namespace services

/-- The store and the requests made so far. -/
structure World where
  db : DB := {}
  requests : List Request := []

/-- Lines 30-49 of `ValidateAndInsertCaf`: insert the row, start the process,
bind the instance id. The struct literal is built from the two assignments
the source shows; the ones it elides (line 34, `// ... map fields`) are not
part of the model. -/
def insertAndStart (env : Env) (w : World) (vars cafData : GoMap) :
    World × GoMap × Outcome Unit :=
  match assertString (mapIndex cafData "cafRefNo") with
  | none => (w, vars, Outcome.panic)
  | some ref =>
  match assertString (mapIndex cafData "zoneCode") with
  | none => (w, vars, Outcome.panic)
  | some zone =>
  match createCaf w.db { CafRefNo := ref, ZoneCode := zone } with
  | none => (w, vars, Outcome.err "duplicate key value violates unique constraint")
  | some (db1, caf) =>
    let procVars : GoMap := [("cafId", Value.uint caf.ID), ("cafRefNo", Value.str caf.CafRefNo)]
    let w1 : World :=
      { db := db1
        requests := w.requests ++ [Request.startProcessInstance "cafOnboarding" procVars] }
    match env.startProcessInstance w.requests "cafOnboarding" procVars with
    | Except.error e => (w1, vars, Outcome.err e)
    | Except.ok instanceId =>
      ({ w1 with db := saveCaf db1 { caf with ProcessInstanceId := instanceId } },
        vars, Outcome.ok ())

/-- The method `CafService.ValidateAndInsertCaf`. Returned: the world after the
call, `vars` after the call (the map under `"cafData"` is updated in place),
and how the call ended. -/
def ValidateAndInsertCaf (env : Env) (w : World) (vars : GoMap) :
    World × GoMap × Outcome Unit :=
  match assertMap (mapIndex vars "cafData") with
  | none => (w, vars, Outcome.panic)
  | some cafData =>
  match assertBool (mapIndex cafData "isUsim") with
  | none => (w, vars, Outcome.panic)
  | some true =>
    match assertString (mapIndex cafData "planCode") with
    | none => (w, vars, Outcome.panic)
    | some planCode =>
      let w1 : World := { w with requests := w.requests ++ [Request.callPyIOTA planCode] }
      match env.callPyIOTA w.requests planCode with
      | Except.error e => (w1, vars, Outcome.err e)
      | Except.ok imsi =>
        let cafData1 := mapSet cafData "permanentImsi" (Value.str imsi)
        insertAndStart env w1 (mapSet vars "cafData" (Value.map cafData1)) cafData1
  | some false => insertAndStart env w vars cafData

end services

/-! ## `flowable.go` -/

namespace main

/-- The Go type `sql.NullString`. -/
structure NullString where
  String : String := ""
  Valid : Bool := false
  deriving DecidableEq, Repr

/-- Modelled from the spec: the declaration of `Caf` of package `main` is
missing from the sources; the fields are those `Step1ProcessKafkaCAF` assigns
and reads, with the types of the values it assigns. The spec's
OnboardingRecord lists the same attributes (reference, zone, plan,
identity-bearing flag, identity, status). -/
structure Caf where
  ID : Nat := 0
  CafRefNo : String := ""
  PlanCode : String := ""
  IsUsim : Bool := false
  PosHrno : String := ""
  ZoneCode : String := ""
  IsAgent : Bool := false
  Status : String := ""
  CurrentStep : Nat := 0
  PermanentImsi : NullString := {}
  Imsi : NullString := {}
  deriving DecidableEq, Repr

/-- The `cafs` table of package `main` and its primary key sequence. -/
structure Store where
  cafs : List Caf := []
  seq : Nat := 1

/-- The call `db.Where("caf_ref_no = ?", ref).FirstOrCreate(&caf)`: the struct
is loaded from the first row with that reference when there is one; otherwise
it is inserted under a fresh primary key. -/
def FirstOrCreate (st : Store) (caf : Caf) : Store × Caf :=
  match st.cafs.find? (fun c => c.CafRefNo == caf.CafRefNo) with
  | some row => (st, row)
  | none =>
    let row := { caf with ID := st.seq }
    ({ cafs := st.cafs ++ [row], seq := st.seq + 1 }, row)

/-- The delegate `OnboardingDelegate.Step1ProcessKafkaCAF`, on the store and
`execution.Variables`; `none` is a panic (a failed type assertion), which
happens before the store is touched. -/
def Step1ProcessKafkaCAF (st : Store) (vars : GoMap) : Option (Store × GoMap) := do
  let cafData ← assertMap (mapIndex vars "cafData")
  let planCode ← assertString (mapIndex cafData "plan_code")
  let isUsim := Contains (ToUpper planCode) "USIM"
  let cafRefNo ← assertString (mapIndex cafData "caf_ref_no")
  let posHrno ← assertString (mapIndex cafData "pos_hrno")
  let zoneCode ← assertString (mapIndex cafData "zone_code")
  let isAgent ← assertBool (mapIndex cafData "is_agent")
  let caf : Caf :=
    { CafRefNo := cafRefNo, PlanCode := planCode, IsUsim := isUsim, PosHrno := posHrno,
      ZoneCode := zoneCode, IsAgent := isAgent, Status := "PENDING_APPROVAL", CurrentStep := 1 }
  let caf ←
    if isUsim then some { caf with PermanentImsi := { String := "IMSI-MOCK", Valid := true } }
    else do
      let imsi ← assertString (mapIndex cafData "imsi")
      some { caf with Imsi := { String := imsi, Valid := true } }
  let (st1, row) := FirstOrCreate st caf
  some (st1, mapSet (mapSet vars "cafId" (Value.uint row.ID)) "cafRefNo" (Value.str row.CafRefNo))

/-- The store of package `main` and the requests made so far. -/
structure World where
  db : Store := {}
  requests : List Request := []

/-- The Go type `FlowableService` (its `DB` field is used by no method). -/
structure FlowableService where
  BaseURL : String

/-- The service built in `main`. -/
def flowableSvc : FlowableService :=
  { BaseURL := "http://localhost:8081/flowable-rest/service" }

/-- The method `FlowableService.StartProcess`. -/
def StartProcess (f : FlowableService) (env : Env) (w : World) (processKey : String)
    (vars : GoMap) : World × Outcome String :=
  let url := f.BaseURL ++ "/runtime/process-instances"
  let payload := Value.map [("processDefinitionKey", Value.str processKey),
    ("variables", Value.map vars)]
  let w1 : World := { w with requests := w.requests ++ [Request.httpPost url payload] }
  match env.post w.requests url payload with
  | Except.error e => (w1, Outcome.err e)
  | Except.ok result =>
    match assertString (mapIndex result "id") with
    | none => (w1, Outcome.panic)
    | some id => (w1, Outcome.ok id)

/-- The method `FlowableService.CompleteTask` (the task id is the string the
caller passes and `%s` formats). -/
def CompleteTask (f : FlowableService) (env : Env) (w : World) (taskID : String)
    (vars : GoMap) : World × Outcome Unit :=
  let url := f.BaseURL ++ "/task/" ++ taskID ++ "/complete"
  let w1 : World := { w with requests := w.requests ++ [Request.httpPost url (Value.map vars)] }
  match env.post w.requests url (Value.map vars) with
  | Except.error e => (w1, Outcome.err e)
  | Except.ok _ => (w1, Outcome.ok ())

/-- The method `FlowableService.SignalProcess`. A failed `http.Get` leaves
`resp` nil and `resp.Body` panics. -/
def SignalProcess (f : FlowableService) (env : Env) (w : World) (businessKey signalName : String)
    (vars : GoMap) : World × Outcome Unit :=
  let url := f.BaseURL ++ "/runtime/process-instances?businessKey=" ++ businessKey
  let w1 : World := { w with requests := w.requests ++ [Request.httpGet url] }
  match env.get w.requests url with
  | Except.error _ => (w1, Outcome.panic)
  | Except.ok processInstances =>
    let signalPayload := Value.map [("signalName", Value.str signalName),
      ("variables", Value.map vars)]
    match assertSlice processInstances with
    | none => (w1, Outcome.panic)
    | some [] => (w1, Outcome.ok ())
    | some (first :: _) =>
      match (assertMap first).bind (fun m => assertString (mapIndex m "id")) with
      | none => (w1, Outcome.panic)
      | some instanceID =>
        ({ w1 with requests := w1.requests ++
            [Request.httpPost (f.BaseURL ++ "/runtime/process-instances/" ++ instanceID ++ "/signal")
              signalPayload] },
          Outcome.ok ())

/-- One turn of the Kafka consumer loop of `main`, on the result of
`r.ReadMessage`. The outcome `ok` stands for reaching the next turn (also
through `continue`); the log lines are not part of the model. -/
def consumeMessage (f : FlowableService) (env : Env) (w : World) (msg : Except String String) :
    World × Outcome Unit :=
  match msg with
  | Except.error _ => (w, Outcome.ok ())
  | Except.ok value =>
    let cafData : GoMap :=
      match env.jsonUnmarshal value with
      | some m => m
      | none => []
    let processVars : GoMap :=
      [("cafData", Value.map cafData), ("businessKey", mapIndex cafData "caf_ref_no")]
    match StartProcess f env w "cafOnboarding" processVars with
    | (w1, Outcome.panic) => (w1, Outcome.panic)
    | (w1, _) => (w1, Outcome.ok ())

/-- The HTTP response of a handler: the status line and the JSON body. -/
structure Response where
  status : Nat
  body : GoMap

/-- The request struct of `POST /caf/:ref/approve`, as `c.BindJSON` leaves it
(zero values where nothing was decoded). -/
structure ApproveReq where
  Approved : Bool := false
  User : String := ""

/-- The request struct of `POST /callback/:target/:corr`, as `c.BindJSON`
leaves it. -/
structure CallbackReq where
  CafRefNo : String := ""
  AckStatus : String := ""

/-- The call `c.JSON(code, body)` after `c.BindJSON(&req)`. When the body did
not bind, `BindJSON` has already written status 400 (gin's `AbortWithError`),
the handler goes on, and the later `c.JSON` writes its body but cannot change
the status; otherwise the status is `code`. -/
def JSON (bindFailed : Bool) (code : Nat) (body : GoMap) : Response :=
  { status := if bindFailed then 400 else code, body := body }

/-- The handler of `POST /caf/:ref/approve`, on the path parameter and on what
`c.BindJSON(&req)` leaves: the struct `req` and whether binding failed (the
handler drops that error). -/
def approveHandler (f : FlowableService) (env : Env) (w : World) (ref : String)
    (req : ApproveReq) (bindFailed : Bool) : World × Response :=
  let taskID := env.GetTaskForCAF w.requests ref
  let w1 :=
    if taskID ≠ "" then (CompleteTask f env w taskID [("approved", Value.bool req.Approved)]).1
    else w
  (w1, JSON bindFailed 200 [("message", Value.str "CSC Approval processed")])

/-- The handler of `POST /callback/:target/:corr`, on the path parameters and
on what `c.BindJSON(&req)` leaves (the struct `req` and whether binding
failed); a panic of `SignalProcess` ends the handler without the response of
line 139. -/
def callbackHandler (f : FlowableService) (env : Env) (w : World) (target _corr : String)
    (req : CallbackReq) (bindFailed : Bool) : World × Outcome Response :=
  let signalName := ToUpper target ++ "AckSignal"
  match SignalProcess f env w req.CafRefNo signalName
      [("ackStatus", Value.str req.AckStatus), ("cafRefNo", Value.str req.CafRefNo)] with
  | (w1, Outcome.panic) => (w1, Outcome.panic)
  | (w1, _) =>
    (w1, Outcome.ok (JSON bindFailed 200 [("message", Value.str (target ++ " ACK received"))]))

end main

/-! ## Reading the model: tokens, start calls, signal names -/

/-- The activation steps named by the specification; the sources issue tokens
for pre-activation only. -/
inductive Step where
  | PreActivation
  | TV
  | FinalActivation
  | Commissioning
  deriving DecidableEq, Repr

/-- A parser for the tokens of `corrId` (the repository has none; this is the
function whose existence the parseability property asks for): after the prefix
`PRE-`, everything before the last `-` is the business reference. -/
def parseCorrId (tok : String) : Option (Step × String) :=
  if "PRE-".data.isPrefixOf tok.data then
    match ((tok.data.drop 4).reverse).dropWhile (fun c => c != '-') with
    | [] => none
    | _ :: refRev => some (Step.PreActivation, ⟨refRev.reverse⟩)
  else none

/-- The correlation token carried by an outbound request: the second argument
of the staging insert, or what follows `http://yourapp/callback/preact/` (31
characters) in the callback URL of the API payload. -/
def Outbound.token : Outbound → String
  | Outbound.insertTelcoStagingTable _ corr => corr
  | Outbound.callTelcoBillingAPI payload =>
    match mapIndex payload "callbackUrl" with
    | Value.str url => ⟨url.data.drop 31⟩
    | _ => ""

/-- The tokens issued by successive runs of `SendPreActivation` for the same
process variables, one run per clock reading. -/
def issuedTokens (db : DB) (vars : GoMap) (nows : List Int) : List String :=
  nows.filterMap (fun now => (SendPreActivation db vars now).map Outbound.token)

/-- Whether a request starts a process instance: the POST of `StartProcess`
or the client call of `ValidateAndInsertCaf`. -/
def isStartCall (f : main.FlowableService) : Request → Bool
  | Request.httpPost url _ => url == f.BaseURL ++ "/runtime/process-instances"
  | Request.startProcessInstance _ _ => true
  | _ => false

/-- Number of start-process calls in a history. -/
def startCalls (f : main.FlowableService) (rs : List Request) : Nat :=
  rs.countP (isStartCall f)

/-- The signal names of the signal POSTs in a history. -/
def signalNames (rs : List Request) : List String :=
  rs.filterMap (fun r =>
    match r with
    | Request.httpPost _ (Value.map m) => assertString (mapIndex m "signalName")
    | _ => none)

/-- Number of `models.Caf` rows with a given business reference. -/
def recordsFor (db : DB) (ref : String) : Nat :=
  db.cafs.countP (fun c => c.CafRefNo == ref)

/-- Number of rows of package `main` with a given business reference. -/
def main.recordsFor (st : main.Store) (ref : String) : Nat :=
  st.cafs.countP (fun c => c.CafRefNo == ref)

/-! ## Sample data -/

/-- The event of the specification's ingestion scenario, decoded. -/
def sampleEvent : GoMap :=
  [("caf_ref_no", Value.str "CAF-1"), ("plan_code", Value.str "USIM-PREMIUM"),
   ("zone_code", Value.str "Z1"), ("is_agent", Value.bool false)]

/-- The same event with the point-of-sale number the delegate also reads. -/
def sampleEventPos : GoMap :=
  sampleEvent ++ [("pos_hrno", Value.str "HR-7")]

/-- The JSON text of `sampleEventPos`. -/
def sampleMessage : String :=
  "\x7b\"caf_ref_no\":\"CAF-1\",\"plan_code\":\"USIM-PREMIUM\",\"zone_code\":\"Z1\"," ++
    "\"is_agent\":false,\"pos_hrno\":\"HR-7\"\x7d"

/-- The same data under the keys `ValidateAndInsertCaf` reads. -/
def sampleCafData : GoMap :=
  [("cafRefNo", Value.str "CAF-1"), ("planCode", Value.str "USIM-PREMIUM"),
   ("zoneCode", Value.str "Z1"), ("isUsim", Value.bool true)]

/-- Process variables of an engine execution started for the sample message. -/
def sampleVars : GoMap :=
  [("cafData", Value.map sampleEventPos)]

/-- The store of package `main` after the delegate has run once on
`sampleVars` from the empty store. -/
def sampleStore1 : main.Store :=
  { cafs := [{ ID := 1, CafRefNo := "CAF-1", PlanCode := "USIM-PREMIUM", IsUsim := true,
               PosHrno := "HR-7", ZoneCode := "Z1", IsAgent := false,
               Status := "PENDING_APPROVAL", CurrentStep := 1,
               PermanentImsi := { String := "IMSI-MOCK", Valid := true } }]
    seq := 2 }

/-- The argument of `ValidateAndInsertCaf` for the sample data. -/
def sampleServiceVars : GoMap :=
  [("cafData", Value.map sampleCafData)]

/-- An outside world in which the engine runs instance `pi-1` for `CAF-1`,
has no pending task, the provisioner answers `IMSI-999`, and the only payload
that decodes is `sampleMessage`. -/
def envSample : Env :=
  { post := fun _ _ _ => Except.ok [("id", Value.str "pi-1")]
    get := fun _ url =>
      if url = "http://localhost:8081/flowable-rest/service/runtime/process-instances?businessKey=CAF-1"
      then Except.ok (Value.arr [Value.map [("id", Value.str "pi-1")]])
      else Except.ok (Value.arr [])
    startProcessInstance := fun _ _ _ => Except.ok "pi-1"
    callPyIOTA := fun _ _ => Except.ok "IMSI-999"
    GetTaskForCAF := fun _ _ => ""
    jsonUnmarshal := fun s => if s = sampleMessage then some sampleEventPos else none }

/-- A store holding the record `CAF-1` of zone `Z1` and no zone configuration. -/
def dbNoZone : DB :=
  { cafs := [{ ID := 1, CafRefNo := "CAF-1", ZoneCode := "Z1", PermanentImsi := "IMSI-999" }]
    zones := []
    seq := 2 }

/-- The same record, with zone `Z1` configured `STAGING` for pre-activation. -/
def dbStaging : DB :=
  { dbNoZone with zones := [{ ZoneCode := "Z1", PreactMode := "STAGING", TvMode := "API" }] }

/-! ## Pre-activation routing (`SendPreActivation`) -/

theorem firstZone_of_absent (db : DB) (z : String)
    (h : ∀ c ∈ db.zones, c.ZoneCode ≠ z) : firstZone db z = {} := by
  have hnone : db.zones.find? (fun c => c.ZoneCode == z) = none := by
    rw [List.find?_eq_none]
    intro c hc
    simpa using h c hc
  simp [firstZone, hnone]

theorem firstZone_mem (db : DB) (z : String)
    (h : ∃ c ∈ db.zones, c.ZoneCode = z) :
    firstZone db z ∈ db.zones ∧ (firstZone db z).ZoneCode = z := by
  unfold firstZone
  cases hf : db.zones.find? (fun c => c.ZoneCode == z) with
  | none =>
    obtain ⟨c, hc, hz⟩ := h
    rw [List.find?_eq_none] at hf
    exact absurd (by simpa using hz) (hf c hc)
  | some c =>
    exact ⟨List.mem_of_find?_eq_some hf, by simpa using List.find?_some hf⟩

/-- C10. Routing correctness of the pre-activation step: when the record's zone
has a `ZoneConfig` row and every row of that zone sets `PreactMode` to
`"STAGING"`, `SendPreActivation` performs the staging insert (for the record
and the token it issued) and never the billing API call. -/
theorem SendPreActivation_staging_never_api (db : DB) (vars : GoMap) (now : Int) (cafId : Nat)
    (hid : mapIndex vars "cafId" = Value.uint cafId)
    (hrow : ∃ c ∈ db.zones, c.ZoneCode = (firstCaf db cafId).ZoneCode)
    (hmode : ∀ c ∈ db.zones, c.ZoneCode = (firstCaf db cafId).ZoneCode →
      c.PreactMode = "STAGING") :
    SendPreActivation db vars now =
        some (Outbound.insertTelcoStagingTable (firstCaf db cafId)
          (corrId (firstCaf db cafId).CafRefNo now)) ∧
      ∀ payload, SendPreActivation db vars now ≠ some (Outbound.callTelcoBillingAPI payload) := by
  obtain ⟨hmem, hz⟩ := firstZone_mem db _ hrow
  have hst := hmode _ hmem hz
  have hne : ¬ ((firstZone db (firstCaf db cafId).ZoneCode).PreactMode = "API") := by
    rw [hst]; decide
  have hres : SendPreActivation db vars now =
      some (Outbound.insertTelcoStagingTable (firstCaf db cafId)
        (corrId (firstCaf db cafId).CafRefNo now)) := by
    simp [SendPreActivation, hid, assertUint, hne]
  refine ⟨hres, ?_⟩
  intro payload h
  rw [hres] at h
  cases h

theorem SendPreActivation_staging_never_api_witness :
    SendPreActivation dbStaging [("cafId", Value.uint 1)] 1700000000 =
        some (Outbound.insertTelcoStagingTable (firstCaf dbStaging 1)
          (corrId (firstCaf dbStaging 1).CafRefNo 1700000000)) ∧
      ∀ payload, SendPreActivation dbStaging [("cafId", Value.uint 1)] 1700000000 ≠
        some (Outbound.callTelcoBillingAPI payload) :=
  SendPreActivation_staging_never_api dbStaging [("cafId", Value.uint 1)] 1700000000 1
    (by rfl) (by decide) (by decide)

/-- C3, as stated, fails: for the record `CAF-1` whose zone `Z1` has no
`ZoneConfig` row, `SendPreActivation` does not fail; it performs the staging
insert. -/
theorem SendPreActivation_unconfigured_zone_counterexample :
    (∀ c ∈ dbNoZone.zones, c.ZoneCode ≠ (firstCaf dbNoZone 1).ZoneCode) ∧
      SendPreActivation dbNoZone [("cafId", Value.uint 1)] 1700000000 =
        some (Outbound.insertTelcoStagingTable
          { ID := 1, CafRefNo := "CAF-1", ZoneCode := "Z1", PermanentImsi := "IMSI-999" }
          "PRE-CAF-1-1700000000") := by
  constructor
  · decide
  · rfl

/-- C3, amended. For a record whose zone code has no `ZoneConfig` row, the
pre-activation step raises no `UnconfiguredZone`: the lookup leaves the zero
`ZoneConfig`, whose `PreactMode` is not `"API"`, so the step performs the
staging insert and never the synchronous API call. -/
theorem SendPreActivation_unconfigured_zone (db : DB) (vars : GoMap) (now : Int) (cafId : Nat)
    (hid : mapIndex vars "cafId" = Value.uint cafId)
    (hnone : ∀ c ∈ db.zones, c.ZoneCode ≠ (firstCaf db cafId).ZoneCode) :
    SendPreActivation db vars now =
        some (Outbound.insertTelcoStagingTable (firstCaf db cafId)
          (corrId (firstCaf db cafId).CafRefNo now)) ∧
      ∀ payload, SendPreActivation db vars now ≠ some (Outbound.callTelcoBillingAPI payload) := by
  have hz := firstZone_of_absent db _ hnone
  have hne : ¬ (("" : String) = "API") := by decide
  have hres : SendPreActivation db vars now =
      some (Outbound.insertTelcoStagingTable (firstCaf db cafId)
        (corrId (firstCaf db cafId).CafRefNo now)) := by
    simp [SendPreActivation, hid, assertUint, hz, hne]
  refine ⟨hres, ?_⟩
  intro payload h
  rw [hres] at h
  cases h

theorem SendPreActivation_unconfigured_zone_witness :
    SendPreActivation dbNoZone [("cafId", Value.uint 1)] 1700000000 =
        some (Outbound.insertTelcoStagingTable (firstCaf dbNoZone 1)
          (corrId (firstCaf dbNoZone 1).CafRefNo 1700000000)) ∧
      ∀ payload, SendPreActivation dbNoZone [("cafId", Value.uint 1)] 1700000000 ≠
        some (Outbound.callTelcoBillingAPI payload) :=
  SendPreActivation_unconfigured_zone dbNoZone [("cafId", Value.uint 1)] 1700000000 1
    (by rfl) (by decide)

/-! ## Correlation tokens (`corrId`) -/

theorem digitChar_ne_dash (d : Nat) (h : d < 10) : Nat.digitChar d ≠ '-' := by
  interval_cases d <;> decide

theorem toDigitsCore_no_dash (fuel : Nat) : ∀ (n : Nat) (acc : List Char),
    (∀ c ∈ acc, c ≠ '-') → ∀ c ∈ Nat.toDigitsCore 10 fuel n acc, c ≠ '-' := by
  induction fuel with
  | zero => intro n acc h; simpa [Nat.toDigitsCore] using h
  | succ k ih =>
    intro n acc h
    have hacc : ∀ c ∈ Nat.digitChar (n % 10) :: acc, c ≠ '-' := by
      intro c hc
      rcases List.mem_cons.mp hc with rfl | hc
      · exact digitChar_ne_dash _ (Nat.mod_lt _ (by decide))
      · exact h c hc
    simp only [Nat.toDigitsCore]
    split
    · exact hacc
    · exact ih _ _ hacc

theorem repr_no_dash (n : Nat) : ∀ c ∈ (Nat.repr n).data, c ≠ '-' := by
  simp only [Nat.repr, Nat.toDigits, List.asString]
  exact toDigitsCore_no_dash _ _ _ (by simp)

theorem digitChar_toNat (d : Nat) (h : d < 10) : (Nat.digitChar d).toNat - 48 = d := by
  interval_cases d <;> rfl

theorem toDigitsCore_value (fuel : Nat) : ∀ (n : Nat) (acc : List Char), n < fuel →
    (Nat.toDigitsCore 10 fuel n acc).foldl (fun a c => 10 * a + (c.toNat - 48)) 0 =
      acc.foldl (fun a c => 10 * a + (c.toNat - 48)) n := by
  induction fuel with
  | zero => intro n acc h; omega
  | succ k ih =>
    intro n acc h
    simp only [Nat.toDigitsCore]
    have hd := digitChar_toNat (n % 10) (Nat.mod_lt _ (by decide))
    split
    · rename_i h0
      simp only [List.foldl_cons, hd]
      congr 1
      omega
    · rename_i h0
      rw [ih (n / 10) _ (by omega)]
      simp only [List.foldl_cons, hd]
      congr 1
      omega

theorem repr_injective (n m : Nat) (h : Nat.repr n = Nat.repr m) : n = m := by
  have h1 := toDigitsCore_value (n + 1) n [] (by omega)
  have h2 := toDigitsCore_value (m + 1) m [] (by omega)
  simp only [Nat.repr, Nat.toDigits, List.asString] at h
  have h3 : Nat.toDigitsCore 10 (n + 1) n [] = Nat.toDigitsCore 10 (m + 1) m [] := by
    injection h
  rw [h3, h2] at h1
  simpa using h1.symm

theorem fmtD_no_dash (t : Int) (h : 0 ≤ t) : ∀ c ∈ (fmtD t).data, c ≠ '-' := by
  obtain ⟨n, rfl⟩ := Int.eq_ofNat_of_zero_le h
  exact repr_no_dash n

theorem fmtD_injective (s t : Int) (hs : 0 ≤ s) (ht : 0 ≤ t) (h : fmtD s = fmtD t) : s = t := by
  obtain ⟨n, rfl⟩ := Int.eq_ofNat_of_zero_le hs
  obtain ⟨m, rfl⟩ := Int.eq_ofNat_of_zero_le ht
  have : Nat.repr n = Nat.repr m := h
  rw [repr_injective n m this]

theorem corrId_data (r : String) (t : Int) :
    (corrId r t).data = 'P' :: 'R' :: 'E' :: '-' :: (r.data ++ '-' :: (fmtD t).data) := by
  simp [corrId, String.data_append]

theorem dropWhile_digits (ds rest : List Char) (h : ∀ c ∈ ds, c ≠ '-') :
    (ds ++ '-' :: rest).dropWhile (fun c => c != '-') = '-' :: rest := by
  induction ds with
  | nil => simp
  | cons d ds ih =>
    have hd : (d != '-') = true := by
      simpa using h d (List.mem_cons_self _ _)
    rw [List.cons_append, List.dropWhile_cons, hd]
    exact ih (fun c hc => h c (List.mem_cons_of_mem _ hc))

theorem parseCorrId_corrId (r : String) (t : Int) (h : 0 ≤ t) :
    parseCorrId (corrId r t) = some (Step.PreActivation, r) := by
  have hrev : ((r.data ++ '-' :: (fmtD t).data).reverse).dropWhile (fun c => c != '-')
      = '-' :: r.data.reverse := by
    rw [List.reverse_append, List.reverse_cons, List.append_assoc]
    exact dropWhile_digits _ _ (fun c hc => fmtD_no_dash t h c (List.mem_reverse.mp hc))
  simp only [parseCorrId, corrId_data]
  have hpre : "PRE-".data.isPrefixOf
      ('P' :: 'R' :: 'E' :: '-' :: (r.data ++ '-' :: (fmtD t).data)) = true := by
    simp [List.isPrefixOf]
  rw [if_pos hpre]
  simp only [List.drop_succ_cons, List.drop_zero]
  rw [hrev]
  simp

theorem corrId_eq_iff (r₁ r₂ : String) (t₁ t₂ : Int) (h₁ : 0 ≤ t₁) (h₂ : 0 ≤ t₂) :
    corrId r₁ t₁ = corrId r₂ t₂ ↔ r₁ = r₂ ∧ t₁ = t₂ := by
  constructor
  · intro h
    have hp := parseCorrId_corrId r₁ t₁ h₁
    rw [h, parseCorrId_corrId r₂ t₂ h₂] at hp
    have hr : r₁ = r₂ := by
      simp at hp
      exact hp.symm
    subst hr
    refine ⟨rfl, ?_⟩
    have hd := congrArg String.data h
    simp only [corrId_data] at hd
    simp at hd
    exact fmtD_injective _ _ h₁ h₂ (String.ext hd)
  · rintro ⟨rfl, rfl⟩; rfl

theorem SendPreActivation_token (db : DB) (vars : GoMap) (now : Int) (cafId : Nat)
    (hid : mapIndex vars "cafId" = Value.uint cafId) :
    (SendPreActivation db vars now).map Outbound.token =
      some (corrId (firstCaf db cafId).CafRefNo now) := by
  have hlen : ("http://yourapp/callback/preact/" : String).data.length = 31 := by decide
  have hurl : ∀ c : String,
      (⟨("http://yourapp/callback/preact/" ++ c).data.drop 31⟩ : String) = c := by
    intro c
    rw [String.data_append, List.drop_left' hlen]
  by_cases hm : (firstZone db (firstCaf db cafId).ZoneCode).PreactMode = "API"
  · have hres : SendPreActivation db vars now = some (Outbound.callTelcoBillingAPI
        [("cafRefNo", Value.str (firstCaf db cafId).CafRefNo),
         ("imsi", Value.str (firstCaf db cafId).PermanentImsi),
         ("callbackUrl", Value.str ("http://yourapp/callback/preact/" ++
            corrId (firstCaf db cafId).CafRefNo now))]) := by
      simp [SendPreActivation, hid, assertUint, hm]
    rw [hres]
    simp [Outbound.token, mapIndex, List.lookup, hurl]
  · simp [SendPreActivation, hid, assertUint, hm, Outbound.token]

/-- C6. Tokens parse back without a lookup: for every business reference `r`
(whatever characters it contains) and every issue time `t` at or after the
Unix epoch, `parseCorrId` maps the issued token `PRE-<r>-<t>` to
`(PreActivation, r)`; and a token issued for a different reference, at any
such time, is a different string. -/
theorem corrId_parses_back (r : String) (t : Int) (ht : 0 ≤ t) :
    parseCorrId (corrId r t) = some (Step.PreActivation, r) ∧
      ∀ (r' : String) (t' : Int), 0 ≤ t' → r ≠ r' → corrId r t ≠ corrId r' t' := by
  refine ⟨parseCorrId_corrId r t ht, ?_⟩
  intro r' t' ht' hne h
  exact hne ((corrId_eq_iff r r' t t' ht ht').mp h).1

theorem corrId_parses_back_witness :
    parseCorrId (corrId "CAF-1" 1700000000) = some (Step.PreActivation, "CAF-1") ∧
      ∀ (r' : String) (t' : Int), 0 ≤ t' → "CAF-1" ≠ r' →
        corrId "CAF-1" 1700000000 ≠ corrId r' t' :=
  corrId_parses_back "CAF-1" 1700000000 (by decide)

/-- C7, as stated, fails: two runs of `SendPreActivation` for `CAF-1` within
the same Unix second issue the same token twice. -/
theorem issuedTokens_repeat_counterexample :
    issuedTokens dbStaging [("cafId", Value.uint 1)] [1700000000, 1700000000] =
        ["PRE-CAF-1-1700000000", "PRE-CAF-1-1700000000"] ∧
      ¬ (issuedTokens dbStaging [("cafId", Value.uint 1)] [1700000000, 1700000000]).Nodup := by
  constructor
  · rfl
  · decide

/-- C7, amended. Two issuances (runs of `SendPreActivation`, at clock readings
at or after the epoch) produce the same token exactly when they are for the
same business reference and read the same Unix second: tokens for different
references or different seconds differ, and a re-issue within the same second
repeats the prior token. -/
theorem issued_token_eq_iff (db₁ db₂ : DB) (vars₁ vars₂ : GoMap) (now₁ now₂ : Int)
    (id₁ id₂ : Nat)
    (hid₁ : mapIndex vars₁ "cafId" = Value.uint id₁)
    (hid₂ : mapIndex vars₂ "cafId" = Value.uint id₂)
    (h₁ : 0 ≤ now₁) (h₂ : 0 ≤ now₂) :
    (SendPreActivation db₁ vars₁ now₁).map Outbound.token =
        (SendPreActivation db₂ vars₂ now₂).map Outbound.token ↔
      (firstCaf db₁ id₁).CafRefNo = (firstCaf db₂ id₂).CafRefNo ∧ now₁ = now₂ := by
  rw [SendPreActivation_token db₁ vars₁ now₁ id₁ hid₁,
    SendPreActivation_token db₂ vars₂ now₂ id₂ hid₂]
  rw [Option.some_inj]
  exact corrId_eq_iff _ _ _ _ h₁ h₂

theorem issued_token_eq_iff_witness :
    (SendPreActivation dbStaging [("cafId", Value.uint 1)] 1700000000).map Outbound.token =
        (SendPreActivation dbNoZone [("cafId", Value.uint 1)] 1700000060).map Outbound.token ↔
      (firstCaf dbStaging 1).CafRefNo = (firstCaf dbNoZone 1).CafRefNo ∧
        (1700000000 : Int) = 1700000060 :=
  issued_token_eq_iff dbStaging dbNoZone [("cafId", Value.uint 1)] [("cafId", Value.uint 1)]
    1700000000 1700000060 1 1 (by rfl) (by rfl) (by decide) (by decide)

/-! ## The HTTP handlers and the consumer loop of `flowable.go` -/

theorem StartProcess_world (f : main.FlowableService) (env : Env) (w : main.World)
    (processKey : String) (vars : GoMap) :
    (main.StartProcess f env w processKey vars).1 =
      { w with requests := w.requests ++
          [Request.httpPost (f.BaseURL ++ "/runtime/process-instances")
            (Value.map [("processDefinitionKey", Value.str processKey),
              ("variables", Value.map vars)])] } := by
  unfold main.StartProcess
  dsimp only
  split
  · rfl
  · split <;> rfl

theorem consumeMessage_world (f : main.FlowableService) (env : Env) (w : main.World)
    (value : String) :
    (main.consumeMessage f env w (Except.ok value)).1 =
      { w with requests := w.requests ++
          [Request.httpPost (f.BaseURL ++ "/runtime/process-instances")
            (Value.map [("processDefinitionKey", Value.str "cafOnboarding"),
              ("variables", Value.map
                [("cafData", Value.map ((env.jsonUnmarshal value).getD [])),
                 ("businessKey", mapIndex ((env.jsonUnmarshal value).getD []) "caf_ref_no")])])] } := by
  have hd : (match env.jsonUnmarshal value with
      | some m => m
      | none => ([] : GoMap)) = (env.jsonUnmarshal value).getD [] := by
    cases env.jsonUnmarshal value <;> rfl
  unfold main.consumeMessage
  simp only [hd]
  rw [← StartProcess_world f env w "cafOnboarding"]
  generalize main.StartProcess f env w "cafOnboarding" _ = r
  obtain ⟨w1, o⟩ := r
  cases o <;> rfl

theorem callbackHandler_world (f : main.FlowableService) (env : Env) (w : main.World)
    (target corr : String) (req : main.CallbackReq) (bindFailed : Bool) (m : GoMap)
    (rest : List Value) (i : String)
    (hget : env.get w.requests
      (f.BaseURL ++ "/runtime/process-instances?businessKey=" ++ req.CafRefNo) =
        Except.ok (Value.arr (Value.map m :: rest)))
    (hid : mapIndex m "id" = Value.str i) :
    (main.callbackHandler f env w target corr req bindFailed).1 =
      { w with requests := w.requests ++
          [Request.httpGet (f.BaseURL ++ "/runtime/process-instances?businessKey=" ++ req.CafRefNo),
           Request.httpPost (f.BaseURL ++ "/runtime/process-instances/" ++ i ++ "/signal")
            (Value.map [("signalName", Value.str (ToUpper target ++ "AckSignal")),
              ("variables", Value.map [("ackStatus", Value.str req.AckStatus),
                ("cafRefNo", Value.str req.CafRefNo)])])] } := by
  simp [main.callbackHandler, main.SignalProcess, hget, assertSlice, assertMap, hid,
    assertString]

/-- C4, as stated, fails: with a body that binds and no pending task for
`CAF-1` (the task lookup returns the empty id) the approval handler answers
200, not 404. -/
theorem approveHandler_no_task_counterexample :
    envSample.GetTaskForCAF [] "CAF-1" = "" ∧
      (main.approveHandler main.flowableSvc envSample {} "CAF-1"
        { Approved := true, User := "ops1" } false).2.status = 200 ∧
      (main.approveHandler main.flowableSvc envSample {} "CAF-1"
        { Approved := true, User := "ops1" } false).2.status ≠ 404 := by
  refine ⟨rfl, rfl, ?_⟩
  decide

/-- C4, amended. `POST /caf/{ref}/approve` never answers 404. With a body that
binds it answers 200, also when the engine has no pending task for `ref`; with
a body that does not bind, the status 400 written by the binding step stays.
In both cases the body written is the message "CSC Approval processed", the
store is not touched, and the guard on the task id only decides whether a
task-completion request is sent: none when the id is empty, exactly one (for
that task, carrying the decision held by `req`) otherwise. -/
theorem approveHandler_status (f : main.FlowableService) (env : Env) (w : main.World)
    (ref : String) (req : main.ApproveReq) (bindFailed : Bool) :
    (main.approveHandler f env w ref req bindFailed).2.status =
        (if bindFailed then 400 else 200) ∧
      (main.approveHandler f env w ref req bindFailed).2.status ≠ 404 ∧
      (main.approveHandler f env w ref req bindFailed).2.body =
        [("message", Value.str "CSC Approval processed")] ∧
      (main.approveHandler f env w ref req bindFailed).1.db = w.db ∧
      (main.approveHandler f env w ref req bindFailed).1.requests =
        if env.GetTaskForCAF w.requests ref = "" then w.requests
        else w.requests ++
          [Request.httpPost (f.BaseURL ++ "/task/" ++ env.GetTaskForCAF w.requests ref ++ "/complete")
            (Value.map [("approved", Value.bool req.Approved)])] := by
  refine ⟨rfl, ?_, rfl, ?_, ?_⟩
  · cases bindFailed <;> simp [main.approveHandler, main.JSON]
  · unfold main.approveHandler main.CompleteTask
    by_cases h : env.GetTaskForCAF w.requests ref = ""
    · simp [h]
    · simp only [ne_eq, h, not_false_eq_true, if_true]
      split <;> rfl
  · unfold main.approveHandler main.CompleteTask
    by_cases h : env.GetTaskForCAF w.requests ref = ""
    · simp [h]
    · simp only [ne_eq, h, not_false_eq_true, if_true, if_false]
      split <;> rfl

/-- C2, as stated, fails: after a second token has been issued for `CAF-1`,
a callback whose `corr` segment is the first token is not discarded; the
handler forwards the signal to the engine instance of `CAF-1`. -/
theorem callbackHandler_stale_token_counterexample :
    issuedTokens dbStaging [("cafId", Value.uint 1)] [1700000000, 1700000060] =
        ["PRE-CAF-1-1700000000", "PRE-CAF-1-1700000060"] ∧
      (main.callbackHandler main.flowableSvc envSample {} "preact" "PRE-CAF-1-1700000000"
        { CafRefNo := "CAF-1", AckStatus := "SUCCESS" } false).1.requests =
        [Request.httpGet
          "http://localhost:8081/flowable-rest/service/runtime/process-instances?businessKey=CAF-1",
         Request.httpPost
          "http://localhost:8081/flowable-rest/service/runtime/process-instances/pi-1/signal"
          (Value.map [("signalName", Value.str "PREACTAckSignal"),
            ("variables", Value.map [("ackStatus", Value.str "SUCCESS"),
              ("cafRefNo", Value.str "CAF-1")])])] := by
  constructor
  · rfl
  · rfl

/-- C2, amended. The callback handler never reads the `corr` path segment: a
callback bearing the first (superseded) token is handled exactly as one
bearing the current token. When the engine reports an instance for the body's
`cafRefNo`, the signal is forwarded to that instance whatever `corr` is; the
onboarding records (and so every status) are left unchanged. -/
theorem callbackHandler_ignores_corr (f : main.FlowableService) (env : Env) (w : main.World)
    (target stale current : String) (req : main.CallbackReq) (bindFailed : Bool) (m : GoMap)
    (rest : List Value) (i : String)
    (hget : env.get w.requests
      (f.BaseURL ++ "/runtime/process-instances?businessKey=" ++ req.CafRefNo) =
        Except.ok (Value.arr (Value.map m :: rest)))
    (hid : mapIndex m "id" = Value.str i) :
    main.callbackHandler f env w target stale req bindFailed =
        main.callbackHandler f env w target current req bindFailed ∧
      (main.callbackHandler f env w target stale req bindFailed).1.db = w.db ∧
      (main.callbackHandler f env w target stale req bindFailed).1.requests = w.requests ++
        [Request.httpGet (f.BaseURL ++ "/runtime/process-instances?businessKey=" ++ req.CafRefNo),
         Request.httpPost (f.BaseURL ++ "/runtime/process-instances/" ++ i ++ "/signal")
          (Value.map [("signalName", Value.str (ToUpper target ++ "AckSignal")),
            ("variables", Value.map [("ackStatus", Value.str req.AckStatus),
              ("cafRefNo", Value.str req.CafRefNo)])])] := by
  refine ⟨rfl, ?_, ?_⟩
  · rw [callbackHandler_world f env w target stale req bindFailed m rest i hget hid]
  · rw [callbackHandler_world f env w target stale req bindFailed m rest i hget hid]

theorem callbackHandler_ignores_corr_witness :
    main.callbackHandler main.flowableSvc envSample {} "preact" "PRE-CAF-1-1700000000"
          { CafRefNo := "CAF-1", AckStatus := "SUCCESS" } false =
        main.callbackHandler main.flowableSvc envSample {} "preact" "PRE-CAF-1-1700000060"
          { CafRefNo := "CAF-1", AckStatus := "SUCCESS" } false ∧
      (main.callbackHandler main.flowableSvc envSample {} "preact" "PRE-CAF-1-1700000000"
          { CafRefNo := "CAF-1", AckStatus := "SUCCESS" } false).1.db = ({} : main.World).db ∧
      (main.callbackHandler main.flowableSvc envSample {} "preact" "PRE-CAF-1-1700000000"
          { CafRefNo := "CAF-1", AckStatus := "SUCCESS" } false).1.requests = ({} : main.World).requests ++
        [Request.httpGet (main.flowableSvc.BaseURL ++
            "/runtime/process-instances?businessKey=" ++ "CAF-1"),
         Request.httpPost (main.flowableSvc.BaseURL ++ "/runtime/process-instances/" ++ "pi-1" ++
            "/signal")
          (Value.map [("signalName", Value.str (ToUpper "preact" ++ "AckSignal")),
            ("variables", Value.map [("ackStatus", Value.str "SUCCESS"),
              ("cafRefNo", Value.str "CAF-1")])])] :=
  callbackHandler_ignores_corr main.flowableSvc envSample {} "preact" "PRE-CAF-1-1700000000"
    "PRE-CAF-1-1700000060" { CafRefNo := "CAF-1", AckStatus := "SUCCESS" } false
    [("id", Value.str "pi-1")] [] "pi-1" (by rfl) (by rfl)

/-- C8, as stated, fails: the successful pre-activation acknowledgment for
`CAF-1` is forwarded under the signal name `PREACTAckSignal`; no signal named
`preActAckSignal` is sent. -/
theorem callbackHandler_signal_name_counterexample :
    signalNames (main.callbackHandler main.flowableSvc envSample {} "preact"
        "PRE-CAF-1-1700000000" { CafRefNo := "CAF-1", AckStatus := "SUCCESS" } false).1.requests =
        ["PREACTAckSignal"] ∧
      "preActAckSignal" ∉ signalNames (main.callbackHandler main.flowableSvc envSample {} "preact"
        "PRE-CAF-1-1700000000" { CafRefNo := "CAF-1", AckStatus := "SUCCESS" } false).1.requests := by
  constructor
  · rfl
  · decide

/-- C8, amended. A pre-activation acknowledgment (callback path target
`preact`, the target of the issued callback URL) is forwarded to the engine
instance found for the body's `cafRefNo` under the signal name exactly
`PREACTAckSignal` (the target in upper case followed by `AckSignal`),
whatever the acknowledgment status. -/
theorem callbackHandler_preact_signal_name (f : main.FlowableService) (env : Env)
    (w : main.World) (corr : String) (req : main.CallbackReq) (bindFailed : Bool) (m : GoMap)
    (rest : List Value) (i : String)
    (hget : env.get w.requests
      (f.BaseURL ++ "/runtime/process-instances?businessKey=" ++ req.CafRefNo) =
        Except.ok (Value.arr (Value.map m :: rest)))
    (hid : mapIndex m "id" = Value.str i) :
    (main.callbackHandler f env w "preact" corr req bindFailed).1.requests = w.requests ++
        [Request.httpGet (f.BaseURL ++ "/runtime/process-instances?businessKey=" ++ req.CafRefNo),
         Request.httpPost (f.BaseURL ++ "/runtime/process-instances/" ++ i ++ "/signal")
          (Value.map [("signalName", Value.str "PREACTAckSignal"),
            ("variables", Value.map [("ackStatus", Value.str req.AckStatus),
              ("cafRefNo", Value.str req.CafRefNo)])])] := by
  rw [callbackHandler_world f env w "preact" corr req bindFailed m rest i hget hid]
  have hname : ToUpper "preact" ++ "AckSignal" = "PREACTAckSignal" := by decide
  rw [hname]

theorem callbackHandler_preact_signal_name_witness :
    (main.callbackHandler main.flowableSvc envSample {} "preact" "PRE-CAF-1-1700000000"
        { CafRefNo := "CAF-1", AckStatus := "SUCCESS" } false).1.requests = ({} : main.World).requests ++
        [Request.httpGet (main.flowableSvc.BaseURL ++
            "/runtime/process-instances?businessKey=" ++ "CAF-1"),
         Request.httpPost (main.flowableSvc.BaseURL ++ "/runtime/process-instances/" ++ "pi-1" ++
            "/signal")
          (Value.map [("signalName", Value.str "PREACTAckSignal"),
            ("variables", Value.map [("ackStatus", Value.str "SUCCESS"),
              ("cafRefNo", Value.str "CAF-1")])])] :=
  callbackHandler_preact_signal_name main.flowableSvc envSample {} "PRE-CAF-1-1700000000"
    { CafRefNo := "CAF-1", AckStatus := "SUCCESS" } false [("id", Value.str "pi-1")] [] "pi-1"
    (by rfl) (by rfl)

/-- C5, as stated, fails: a payload that is not valid JSON still makes the
consumer loop call the engine (with an empty `cafData` and a nil business
key), and `Step1ProcessKafkaCAF` on data lacking `plan_code` ends in the panic
of a failed type assertion. -/
theorem consumeMessage_malformed_counterexample :
    envSample.jsonUnmarshal "not json" = none ∧
      (main.consumeMessage main.flowableSvc envSample {} (Except.ok "not json")).1.requests =
        [Request.httpPost "http://localhost:8081/flowable-rest/service/runtime/process-instances"
          (Value.map [("processDefinitionKey", Value.str "cafOnboarding"),
            ("variables", Value.map [("cafData", Value.map []), ("businessKey", Value.nil)])])] ∧
      startCalls main.flowableSvc
        (main.consumeMessage main.flowableSvc envSample {} (Except.ok "not json")).1.requests = 1 ∧
      main.Step1ProcessKafkaCAF {}
        [("cafData", Value.map [("caf_ref_no", Value.str "CAF-1"), ("zone_code", Value.str "Z1")])]
        = none := by
  refine ⟨by rfl, by rfl, by decide, by rfl⟩

/-- C5, amended. The consumer loop does not validate the payload: for every
message read, whether or not it is valid JSON and whatever fields it has, the
loop makes exactly one start-process call, passing as `cafData` the decoded
map (empty when decoding failed) and as `businessKey` the value under
`caf_ref_no` (nil when absent). No `MalformedEvent` is raised before the
engine is called, and the store is not touched. -/
theorem consumeMessage_always_starts (f : main.FlowableService) (env : Env) (w : main.World)
    (value : String) :
    (main.consumeMessage f env w (Except.ok value)).1.requests = w.requests ++
        [Request.httpPost (f.BaseURL ++ "/runtime/process-instances")
          (Value.map [("processDefinitionKey", Value.str "cafOnboarding"),
            ("variables", Value.map
              [("cafData", Value.map ((env.jsonUnmarshal value).getD [])),
               ("businessKey", mapIndex ((env.jsonUnmarshal value).getD []) "caf_ref_no")])])] ∧
      (main.consumeMessage f env w (Except.ok value)).1.db = w.db ∧
      startCalls f (main.consumeMessage f env w (Except.ok value)).1.requests =
        startCalls f w.requests + 1 := by
  rw [consumeMessage_world f env w value]
  refine ⟨rfl, rfl, ?_⟩
  simp [startCalls, List.countP_append, isStartCall]

/-! ## Ingestion: `ValidateAndInsertCaf` and `Step1ProcessKafkaCAF` -/

theorem lookup_filter_ne (m : GoMap) (k k' : String) (h : k' ≠ k) :
    (m.filter (fun kv => kv.1 != k)).lookup k' = m.lookup k' := by
  induction m with
  | nil => rfl
  | cons kv m ih =>
    obtain ⟨a, b⟩ := kv
    by_cases hak : a = k
    · subst hak
      have h1 : (k' == a) = false := by simpa using h
      simp [List.filter, List.lookup, h1, ih]
    · have h2 : (a != k) = true := by simpa using hak
      by_cases hk : k' = a
      · subst hk
        simp [List.filter, h2, List.lookup]
      · have h3 : (k' == a) = false := by simpa using hk
        simp [List.filter, h2, List.lookup, h3, ih]

theorem mapIndex_mapSet_ne (m : GoMap) (k k' : String) (v : Value) (h : k' ≠ k) :
    mapIndex (mapSet m k v) k' = mapIndex m k' := by
  have h1 : (k' == k) = false := by simpa using h
  simp only [mapIndex, mapSet, List.lookup, h1, lookup_filter_ne m k k' h]

theorem mapIndex_mapSet_eq (m : GoMap) (k : String) (v : Value) :
    mapIndex (mapSet m k v) k = v := by
  simp [mapIndex, mapSet, List.lookup]

theorem createCaf_existing (db : DB) (caf : models.Caf)
    (h : 0 < recordsFor db caf.CafRefNo) : createCaf db caf = none := by
  have hany : db.cafs.any (fun c => c.CafRefNo == caf.CafRefNo) = true := by
    obtain ⟨c, hc, hp⟩ := List.countP_pos_iff.mp h
    exact List.any_eq_true.mpr ⟨c, hc, hp⟩
  simp [createCaf, hany]

theorem createCaf_fresh (db : DB) (caf : models.Caf)
    (h : recordsFor db caf.CafRefNo = 0) :
    createCaf db caf =
      some ({ db with cafs := db.cafs ++ [{ caf with ID := db.seq }], seq := db.seq + 1 },
        { caf with ID := db.seq }) := by
  have hany : db.cafs.any (fun c => c.CafRefNo == caf.CafRefNo) = false := by
    rw [Bool.eq_false_iff]
    intro hx
    obtain ⟨c, hc, hp⟩ := List.any_eq_true.mp hx
    have : 0 < recordsFor db caf.CafRefNo := List.countP_pos_iff.mpr ⟨c, hc, hp⟩
    omega
  simp [createCaf, hany]

theorem saveCaf_last (db : DB) (row caf : models.Caf) (hrow : row.ID = db.seq)
    (hcaf : caf.ID = db.seq) (hseq : ∀ c ∈ db.cafs, c.ID < db.seq) :
    saveCaf { db with cafs := db.cafs ++ [row], seq := db.seq + 1 } caf =
      { db with cafs := db.cafs ++ [caf], seq := db.seq + 1 } := by
  have hmap : db.cafs.map (fun c => if c.ID == caf.ID then caf else c) = db.cafs := by
    conv_rhs => rw [← List.map_id db.cafs]
    apply List.map_congr_left
    intro c hc
    have hlt := hseq c hc
    have hne : (c.ID == caf.ID) = false := by
      rw [hcaf]; simpa using Nat.ne_of_lt hlt
    simp [hne]
  rw [hcaf] at hmap
  simp only [saveCaf, List.map_append, List.map_cons, List.map_nil, hrow, hcaf,
    beq_self_eq_true, if_true, hmap]

theorem insertAndStart_existing (env : Env) (w : services.World) (vars cafData : GoMap)
    (ref : String) (href : mapIndex cafData "cafRefNo" = Value.str ref)
    (hex : 0 < recordsFor w.db ref) :
    (services.insertAndStart env w vars cafData).1 = w := by
  unfold services.insertAndStart
  rw [href]
  simp only [assertString]
  split
  · rfl
  · rw [createCaf_existing w.db _ hex]

theorem insertAndStart_fresh (env : Env) (w : services.World) (vars cafData : GoMap)
    (ref zone i : String)
    (href : mapIndex cafData "cafRefNo" = Value.str ref)
    (hzone : mapIndex cafData "zoneCode" = Value.str zone)
    (hfresh : recordsFor w.db ref = 0)
    (hseq : ∀ c ∈ w.db.cafs, c.ID < w.db.seq)
    (hstart : env.startProcessInstance w.requests "cafOnboarding"
      [("cafId", Value.uint w.db.seq), ("cafRefNo", Value.str ref)] = Except.ok i) :
    services.insertAndStart env w vars cafData =
      ({ db := { w.db with
            cafs := w.db.cafs ++
              [{ ID := w.db.seq, CafRefNo := ref, ZoneCode := zone, ProcessInstanceId := i }]
            seq := w.db.seq + 1 }
         requests := w.requests ++ [Request.startProcessInstance "cafOnboarding"
            [("cafId", Value.uint w.db.seq), ("cafRefNo", Value.str ref)]] },
        vars, Outcome.ok ()) := by
  unfold services.insertAndStart
  rw [href, hzone]
  simp only [assertString]
  rw [createCaf_fresh w.db { CafRefNo := ref, ZoneCode := zone } hfresh]
  simp only [hstart]
  rw [saveCaf_last w.db _ _ rfl rfl hseq]

theorem insertAndStart_ok (f : main.FlowableService) (env : Env) (w : services.World)
    (vars cafData : GoMap) (ref : String)
    (href : mapIndex cafData "cafRefNo" = Value.str ref)
    (hfresh : recordsFor w.db ref = 0)
    (hseq : ∀ c ∈ w.db.cafs, c.ID < w.db.seq)
    (hok : (services.insertAndStart env w vars cafData).2.2 = Outcome.ok ()) :
    recordsFor (services.insertAndStart env w vars cafData).1.db ref = 1 ∧
      startCalls f (services.insertAndStart env w vars cafData).1.requests =
        startCalls f w.requests + 1 := by
  cases hz : mapIndex cafData "zoneCode" with
  | str zone =>
    cases hs : env.startProcessInstance w.requests "cafOnboarding"
        [("cafId", Value.uint w.db.seq), ("cafRefNo", Value.str ref)] with
    | ok i =>
      rw [insertAndStart_fresh env w vars cafData ref zone i href hz hfresh hseq hs]
      constructor
      · have h0 : List.countP (fun c => c.CafRefNo == ref) w.db.cafs = 0 := hfresh
        simp [recordsFor, List.countP_append, h0]
      · simp [startCalls, List.countP_append, isStartCall]
    | error e =>
      exfalso
      unfold services.insertAndStart at hok
      rw [href, hz] at hok
      simp only [assertString] at hok
      rw [createCaf_fresh w.db { CafRefNo := ref, ZoneCode := zone } hfresh] at hok
      simp only [hs] at hok
      cases hok
  | _ =>
    exfalso
    unfold services.insertAndStart at hok
    rw [href, hz] at hok
    simp [assertString] at hok

theorem startCalls_callPyIOTA (f : main.FlowableService) (rs : List Request) (pc : String) :
    startCalls f (rs ++ [Request.callPyIOTA pc]) = startCalls f rs := by
  simp [startCalls, List.countP_append, isStartCall]

theorem ValidateAndInsertCaf_cases (env : Env) (w : services.World) (vars cafData : GoMap)
    (hdata : mapIndex vars "cafData" = Value.map cafData) :
    ((services.ValidateAndInsertCaf env w vars).1 = w ∧
        (services.ValidateAndInsertCaf env w vars).2.2 ≠ Outcome.ok ()) ∨
      (∃ pc, (services.ValidateAndInsertCaf env w vars).1 =
          { w with requests := w.requests ++ [Request.callPyIOTA pc] } ∧
        (services.ValidateAndInsertCaf env w vars).2.2 ≠ Outcome.ok ()) ∨
      (∃ pc imsi, services.ValidateAndInsertCaf env w vars =
        services.insertAndStart env
          { w with requests := w.requests ++ [Request.callPyIOTA pc] }
          (mapSet vars "cafData" (Value.map (mapSet cafData "permanentImsi" (Value.str imsi))))
          (mapSet cafData "permanentImsi" (Value.str imsi))) ∨
      services.ValidateAndInsertCaf env w vars = services.insertAndStart env w vars cafData := by
  cases hb : assertBool (mapIndex cafData "isUsim") with
  | none =>
    left
    simp [services.ValidateAndInsertCaf, hdata, assertMap, hb]
  | some b =>
    cases b with
    | false =>
      right; right; right
      simp [services.ValidateAndInsertCaf, hdata, assertMap, hb]
    | true =>
      cases hp : assertString (mapIndex cafData "planCode") with
      | none =>
        left
        simp [services.ValidateAndInsertCaf, hdata, assertMap, hb, hp]
      | some pc =>
        cases hi : env.callPyIOTA w.requests pc with
        | error e =>
          right; left
          exact ⟨pc, by simp [services.ValidateAndInsertCaf, hdata, assertMap, hb, hp, hi]⟩
        | ok imsi =>
          right; right; left
          exact ⟨pc, imsi, by simp [services.ValidateAndInsertCaf, hdata, assertMap, hb, hp, hi]⟩

theorem ValidateAndInsertCaf_existing (f : main.FlowableService) (env : Env)
    (w : services.World) (vars cafData : GoMap) (ref : String)
    (hdata : mapIndex vars "cafData" = Value.map cafData)
    (href : mapIndex cafData "cafRefNo" = Value.str ref)
    (hex : 0 < recordsFor w.db ref) :
    (services.ValidateAndInsertCaf env w vars).1.db = w.db ∧
      startCalls f (services.ValidateAndInsertCaf env w vars).1.requests =
        startCalls f w.requests := by
  rcases ValidateAndInsertCaf_cases env w vars cafData hdata with
    ⟨h, _⟩ | ⟨pc, h, _⟩ | ⟨pc, imsi, h⟩ | h
  · rw [h]; exact ⟨rfl, rfl⟩
  · rw [h]; exact ⟨rfl, startCalls_callPyIOTA f _ _⟩
  · have href1 : mapIndex (mapSet cafData "permanentImsi" (Value.str imsi)) "cafRefNo" =
        Value.str ref := by
      rw [mapIndex_mapSet_ne _ _ _ _ (by decide), href]
    rw [h, insertAndStart_existing env
      { w with requests := w.requests ++ [Request.callPyIOTA pc] } _ _ ref href1 hex]
    exact ⟨rfl, startCalls_callPyIOTA f _ _⟩
  · rw [h, insertAndStart_existing env w vars cafData ref href hex]
    exact ⟨rfl, rfl⟩

theorem ValidateAndInsertCaf_ok (f : main.FlowableService) (env : Env)
    (w : services.World) (vars cafData : GoMap) (ref : String)
    (hdata : mapIndex vars "cafData" = Value.map cafData)
    (href : mapIndex cafData "cafRefNo" = Value.str ref)
    (hfresh : recordsFor w.db ref = 0)
    (hseq : ∀ c ∈ w.db.cafs, c.ID < w.db.seq)
    (hok : (services.ValidateAndInsertCaf env w vars).2.2 = Outcome.ok ()) :
    recordsFor (services.ValidateAndInsertCaf env w vars).1.db ref = 1 ∧
      startCalls f (services.ValidateAndInsertCaf env w vars).1.requests =
        startCalls f w.requests + 1 := by
  rcases ValidateAndInsertCaf_cases env w vars cafData hdata with
    ⟨_, h⟩ | ⟨pc, _, h⟩ | ⟨pc, imsi, h⟩ | h
  · exact absurd hok h
  · exact absurd hok h
  · have href1 : mapIndex (mapSet cafData "permanentImsi" (Value.str imsi)) "cafRefNo" =
        Value.str ref := by
      rw [mapIndex_mapSet_ne _ _ _ _ (by decide), href]
    rw [h] at hok ⊢
    have h2 := insertAndStart_ok f env
      { w with requests := w.requests ++ [Request.callPyIOTA pc] } _ _ ref href1
      hfresh hseq hok
    rw [startCalls_callPyIOTA] at h2
    exact h2
  · rw [h] at hok ⊢
    exact insertAndStart_ok f env w vars cafData ref href hfresh hseq hok

theorem FirstOrCreate_existing (st : main.Store) (caf : main.Caf)
    (h : 0 < main.recordsFor st caf.CafRefNo) : (main.FirstOrCreate st caf).1 = st := by
  unfold main.FirstOrCreate
  cases hf : st.cafs.find? (fun c => c.CafRefNo == caf.CafRefNo) with
  | some row => rfl
  | none =>
    exfalso
    obtain ⟨c, hc, hp⟩ := List.countP_pos_iff.mp h
    rw [List.find?_eq_none] at hf
    exact hf c hc hp

theorem FirstOrCreate_fresh (st : main.Store) (caf : main.Caf)
    (h : main.recordsFor st caf.CafRefNo = 0) :
    main.FirstOrCreate st caf =
      ({ cafs := st.cafs ++ [{ caf with ID := st.seq }], seq := st.seq + 1 },
        { caf with ID := st.seq }) := by
  unfold main.FirstOrCreate
  cases hf : st.cafs.find? (fun c => c.CafRefNo == caf.CafRefNo) with
  | none => rfl
  | some row =>
    exfalso
    have hmem := List.mem_of_find?_eq_some hf
    have hp := List.find?_some hf
    have : 0 < main.recordsFor st caf.CafRefNo := List.countP_pos_iff.mpr ⟨row, hmem, hp⟩
    omega

theorem Step1_some_inv (st st1 : main.Store) (vars vars1 cafData : GoMap) (ref : String)
    (hdata : mapIndex vars "cafData" = Value.map cafData)
    (href : mapIndex cafData "caf_ref_no" = Value.str ref)
    (h : main.Step1ProcessKafkaCAF st vars = some (st1, vars1)) :
    ∃ caf : main.Caf, caf.CafRefNo = ref ∧ ∀ st' : main.Store,
      main.Step1ProcessKafkaCAF st' vars =
        some ((main.FirstOrCreate st' caf).1,
          mapSet (mapSet vars "cafId" (Value.uint (main.FirstOrCreate st' caf).2.ID))
            "cafRefNo" (Value.str (main.FirstOrCreate st' caf).2.CafRefNo)) := by
  have hd : assertMap (mapIndex vars "cafData") = some cafData := by rw [hdata]; rfl
  have hr : assertString (mapIndex cafData "caf_ref_no") = some ref := by rw [href]; rfl
  cases hp : assertString (mapIndex cafData "plan_code") with
  | none => simp [main.Step1ProcessKafkaCAF, hd, hp] at h
  | some pc =>
  cases hpos : assertString (mapIndex cafData "pos_hrno") with
  | none => simp [main.Step1ProcessKafkaCAF, hd, hp, hr, hpos] at h
  | some hrno =>
  cases hz : assertString (mapIndex cafData "zone_code") with
  | none => simp [main.Step1ProcessKafkaCAF, hd, hp, hr, hpos, hz] at h
  | some zone =>
  cases ha : assertBool (mapIndex cafData "is_agent") with
  | none => simp [main.Step1ProcessKafkaCAF, hd, hp, hr, hpos, hz, ha] at h
  | some agent =>
  by_cases hu : Contains (ToUpper pc) "USIM" = true
  · refine ⟨
      { CafRefNo := ref, PlanCode := pc, IsUsim := true, PosHrno := hrno,
        ZoneCode := zone, IsAgent := agent, Status := "PENDING_APPROVAL", CurrentStep := 1,
        PermanentImsi := { String := "IMSI-MOCK", Valid := true } }, rfl, ?_⟩
    intro st'
    simp [main.Step1ProcessKafkaCAF, hd, hp, hr, hpos, hz, ha, hu]
  · cases hi : assertString (mapIndex cafData "imsi") with
    | none => simp [main.Step1ProcessKafkaCAF, hd, hp, hr, hpos, hz, ha, hu, hi] at h
    | some imsi =>
      have hu' : Contains (ToUpper pc) "USIM" = false := by simpa using hu
      refine ⟨
        { CafRefNo := ref, PlanCode := pc, IsUsim := false, PosHrno := hrno,
          ZoneCode := zone, IsAgent := agent, Status := "PENDING_APPROVAL", CurrentStep := 1,
          Imsi := { String := imsi, Valid := true } }, rfl, ?_⟩
      intro st'
      simp [main.Step1ProcessKafkaCAF, hd, hp, hr, hpos, hz, ha, hu', hi]

theorem Step1_twice (st st1 : main.Store) (vars vars1 cafData : GoMap) (ref : String)
    (hdata : mapIndex vars "cafData" = Value.map cafData)
    (href : mapIndex cafData "caf_ref_no" = Value.str ref)
    (huniq : main.recordsFor st ref ≤ 1)
    (h : main.Step1ProcessKafkaCAF st vars = some (st1, vars1)) :
    main.recordsFor st1 ref = 1 ∧
      ∃ vars2, main.Step1ProcessKafkaCAF st1 vars = some (st1, vars2) := by
  obtain ⟨caf, hc, hall⟩ := Step1_some_inv st st1 vars vars1 cafData ref hdata href h
  subst hc
  have hst1 : st1 = (main.FirstOrCreate st caf).1 := by
    have := hall st
    rw [h] at this
    injection this with this
    exact congrArg Prod.fst this
  have hcount : main.recordsFor st1 caf.CafRefNo = 1 := by
    rw [hst1]
    by_cases h0 : main.recordsFor st caf.CafRefNo = 0
    · rw [FirstOrCreate_fresh st caf h0]
      have h0' : List.countP (fun c => c.CafRefNo == caf.CafRefNo) st.cafs = 0 := h0
      simp [main.recordsFor, List.countP_append, h0']
    · rw [FirstOrCreate_existing st caf (by omega)]
      omega
  refine ⟨hcount, ?_⟩
  have hsame : (main.FirstOrCreate st1 caf).1 = st1 :=
    FirstOrCreate_existing st1 caf (by omega)
  have h2 := hall st1
  rw [hsame] at h2
  exact ⟨_, h2⟩

theorem Step1_fresh_usim (st : main.Store) (vars cafData : GoMap)
    (ref pc hrno zone : String) (agent : Bool)
    (hdata : mapIndex vars "cafData" = Value.map cafData)
    (hplan : mapIndex cafData "plan_code" = Value.str pc)
    (husim : Contains (ToUpper pc) "USIM" = true)
    (href : mapIndex cafData "caf_ref_no" = Value.str ref)
    (hpos : mapIndex cafData "pos_hrno" = Value.str hrno)
    (hzone : mapIndex cafData "zone_code" = Value.str zone)
    (hagent : mapIndex cafData "is_agent" = Value.bool agent)
    (hfresh : main.recordsFor st ref = 0) :
    main.Step1ProcessKafkaCAF st vars =
      some ({ cafs := st.cafs ++
                [{ ID := st.seq, CafRefNo := ref, PlanCode := pc, IsUsim := true, PosHrno := hrno,
                   ZoneCode := zone, IsAgent := agent, Status := "PENDING_APPROVAL",
                   CurrentStep := 1, PermanentImsi := { String := "IMSI-MOCK", Valid := true } }]
              seq := st.seq + 1 },
        mapSet (mapSet vars "cafId" (Value.uint st.seq)) "cafRefNo" (Value.str ref)) := by
  have hfc := FirstOrCreate_fresh st
    { CafRefNo := ref, PlanCode := pc, IsUsim := true, PosHrno := hrno,
      ZoneCode := zone, IsAgent := agent, Status := "PENDING_APPROVAL", CurrentStep := 1,
      PermanentImsi := { String := "IMSI-MOCK", Valid := true } } hfresh
  simp [main.Step1ProcessKafkaCAF, hdata, assertMap, hplan, assertString, husim, href, hpos,
    hzone, hagent, assertBool, hfc]

/-- C1, as stated, fails: the same message delivered twice to the consumer
loop of `flowable.go` makes two start-process calls. -/
theorem consumeMessage_redelivery_counterexample :
    startCalls main.flowableSvc
      (main.consumeMessage main.flowableSvc envSample
        (main.consumeMessage main.flowableSvc envSample {} (Except.ok sampleMessage)).1
        (Except.ok sampleMessage)).1.requests = 2 := by
  decide

/-- C1, amended. Ingesting the same event twice in a row:

* through the consumer loop of `flowable.go`, each delivery makes one
  start-process call, two in all (the second delivery does start a second
  process instance);
* the delegate `Step1ProcessKafkaCAF`, run for a reference with at most one
  record, leaves exactly one record for it, and a second run on the same
  event changes nothing in the store (`FirstOrCreate` on `caf_ref_no`);
* through `ValidateAndInsertCaf`, from a store without the reference and with
  the first call returning nil, the two calls together make exactly one
  start-process call and leave exactly one record for the reference (the
  re-delivery stops at the unique insert). -/
theorem ingest_twice (f : main.FlowableService) (env : Env)
    (w : main.World) (value : String)
    (st st1 : main.Store) (vars vars1 cafData : GoMap) (ref : String)
    (hdata : mapIndex vars "cafData" = Value.map cafData)
    (href : mapIndex cafData "caf_ref_no" = Value.str ref)
    (huniq : main.recordsFor st ref ≤ 1)
    (hstep : main.Step1ProcessKafkaCAF st vars = some (st1, vars1))
    (sw : services.World) (svars scafData : GoMap) (sref : String)
    (hsdata : mapIndex svars "cafData" = Value.map scafData)
    (hsref : mapIndex scafData "cafRefNo" = Value.str sref)
    (hfresh : recordsFor sw.db sref = 0)
    (hseq : ∀ c ∈ sw.db.cafs, c.ID < sw.db.seq)
    (hok : (services.ValidateAndInsertCaf env sw svars).2.2 = Outcome.ok ()) :
    startCalls f
        (main.consumeMessage f env (main.consumeMessage f env w (Except.ok value)).1
          (Except.ok value)).1.requests = startCalls f w.requests + 2 ∧
      (main.recordsFor st1 ref = 1 ∧
        ∃ vars2, main.Step1ProcessKafkaCAF st1 vars = some (st1, vars2)) ∧
      (recordsFor
          (services.ValidateAndInsertCaf env
            (services.ValidateAndInsertCaf env sw svars).1 svars).1.db sref = 1 ∧
        startCalls f
          (services.ValidateAndInsertCaf env
            (services.ValidateAndInsertCaf env sw svars).1 svars).1.requests =
          startCalls f sw.requests + 1) := by
  refine ⟨?_, Step1_twice st st1 vars vars1 cafData ref hdata href huniq hstep, ?_⟩
  · rw [consumeMessage_world, consumeMessage_world]
    simp [startCalls, List.countP_append, isStartCall]
  · obtain ⟨hrec, hcalls⟩ :=
      ValidateAndInsertCaf_ok f env sw svars scafData sref hsdata hsref hfresh hseq hok
    obtain ⟨hdb, hcalls2⟩ :=
      ValidateAndInsertCaf_existing f env (services.ValidateAndInsertCaf env sw svars).1
        svars scafData sref hsdata hsref (by omega)
    rw [hdb, hcalls2]
    exact ⟨hrec, hcalls⟩

theorem ingest_twice_witness :
    startCalls main.flowableSvc
        (main.consumeMessage main.flowableSvc envSample
          (main.consumeMessage main.flowableSvc envSample {} (Except.ok sampleMessage)).1
          (Except.ok sampleMessage)).1.requests =
        startCalls main.flowableSvc ({} : main.World).requests + 2 ∧
      (main.recordsFor sampleStore1 "CAF-1" = 1 ∧
        ∃ vars2, main.Step1ProcessKafkaCAF sampleStore1 sampleVars = some (sampleStore1, vars2)) ∧
      (recordsFor
          (services.ValidateAndInsertCaf envSample
            (services.ValidateAndInsertCaf envSample {} sampleServiceVars).1
            sampleServiceVars).1.db "CAF-1" = 1 ∧
        startCalls main.flowableSvc
          (services.ValidateAndInsertCaf envSample
            (services.ValidateAndInsertCaf envSample {} sampleServiceVars).1
            sampleServiceVars).1.requests =
          startCalls main.flowableSvc ({} : services.World).requests + 1) :=
  ingest_twice main.flowableSvc envSample {} sampleMessage
    {} sampleStore1 sampleVars
    (mapSet (mapSet sampleVars "cafId" (Value.uint 1)) "cafRefNo" (Value.str "CAF-1"))
    sampleEventPos "CAF-1" (by rfl) (by rfl) (by decide) (by rfl)
    {} sampleServiceVars sampleCafData "CAF-1" (by rfl) (by rfl) (by decide)
    (by intro c hc; cases hc) (by rfl)

theorem ValidateAndInsertCaf_fresh_usim (env : Env) (w : services.World) (vars cafData : GoMap)
    (ref pc zone v i : String)
    (hdata : mapIndex vars "cafData" = Value.map cafData)
    (husim : mapIndex cafData "isUsim" = Value.bool true)
    (hplan : mapIndex cafData "planCode" = Value.str pc)
    (href : mapIndex cafData "cafRefNo" = Value.str ref)
    (hzone : mapIndex cafData "zoneCode" = Value.str zone)
    (hfresh : recordsFor w.db ref = 0)
    (hseq : ∀ c ∈ w.db.cafs, c.ID < w.db.seq)
    (hprov : env.callPyIOTA w.requests pc = Except.ok v)
    (hstart : env.startProcessInstance (w.requests ++ [Request.callPyIOTA pc]) "cafOnboarding"
      [("cafId", Value.uint w.db.seq), ("cafRefNo", Value.str ref)] = Except.ok i) :
    services.ValidateAndInsertCaf env w vars =
      ({ db := { w.db with
            cafs := w.db.cafs ++
              [{ ID := w.db.seq, CafRefNo := ref, ZoneCode := zone, ProcessInstanceId := i }]
            seq := w.db.seq + 1 }
         requests := w.requests ++
            [Request.callPyIOTA pc,
             Request.startProcessInstance "cafOnboarding"
              [("cafId", Value.uint w.db.seq), ("cafRefNo", Value.str ref)]] },
        mapSet vars "cafData" (Value.map (mapSet cafData "permanentImsi" (Value.str v))),
        Outcome.ok ()) := by
  have hV : services.ValidateAndInsertCaf env w vars =
      services.insertAndStart env
        { w with requests := w.requests ++ [Request.callPyIOTA pc] }
        (mapSet vars "cafData" (Value.map (mapSet cafData "permanentImsi" (Value.str v))))
        (mapSet cafData "permanentImsi" (Value.str v)) := by
    simp [services.ValidateAndInsertCaf, hdata, assertMap, husim, assertBool, hplan,
      assertString, hprov]
  have href1 : mapIndex (mapSet cafData "permanentImsi" (Value.str v)) "cafRefNo" =
      Value.str ref := by
    rw [mapIndex_mapSet_ne _ _ _ _ (by decide), href]
  have hzone1 : mapIndex (mapSet cafData "permanentImsi" (Value.str v)) "zoneCode" =
      Value.str zone := by
    rw [mapIndex_mapSet_ne _ _ _ _ (by decide), hzone]
  rw [hV, insertAndStart_fresh env
    { w with requests := w.requests ++ [Request.callPyIOTA pc] } _ _ ref zone i href1 hzone1
    hfresh hseq hstart]
  simp

/-- C9, as stated, fails. With the provisioner returning `IMSI-999` and the
engine starting instance `pi-1`, `ValidateAndInsertCaf` returns nil and leaves
one record for `CAF-1` whose status is not `STARTED`; `Step1ProcessKafkaCAF`
leaves a record with status `PENDING_APPROVAL` and identity `IMSI-MOCK`; and
on the scenario's own event, which has no `pos_hrno`, the delegate ends in a
panic. -/
theorem first_ingestion_counterexample :
    recordsFor (services.ValidateAndInsertCaf envSample {} sampleServiceVars).1.db "CAF-1" = 1 ∧
      (∀ c ∈ (services.ValidateAndInsertCaf envSample {} sampleServiceVars).1.db.cafs,
        c.Status ≠ "STARTED") ∧
      (main.Step1ProcessKafkaCAF {} sampleVars).map (fun r => r.1) = some sampleStore1 ∧
      (∀ c ∈ sampleStore1.cafs, c.Status ≠ "STARTED" ∧ c.PermanentImsi.String ≠ "IMSI-999") ∧
      main.Step1ProcessKafkaCAF {} [("cafData", Value.map sampleEvent)] = none := by
  refine ⟨by decide, by decide, by rfl, by decide, by rfl⟩

/-- C9, amended. First ingestion of a not-yet-seen reference with an
identity-bearing plan:

* `ValidateAndInsertCaf`, when provisioning returns `v`, the engine start
  succeeds with instance id `i` and the store accepts the writes, returns nil
  and appends exactly one record, which holds the reference, the zone code and
  process-instance id `i`; `v` is written to `cafData["permanentImsi"]`; the
  record's status is not `STARTED` (no code writes that status);
* `Step1ProcessKafkaCAF` creates the record with status `PENDING_APPROVAL`
  and the fixed permanent identity `IMSI-MOCK`, consulting no provisioner and
  storing no instance id. -/
theorem first_ingestion (env : Env) (w : services.World) (vars cafData : GoMap)
    (ref pc zone v i : String)
    (hdata : mapIndex vars "cafData" = Value.map cafData)
    (husim : mapIndex cafData "isUsim" = Value.bool true)
    (hplan : mapIndex cafData "planCode" = Value.str pc)
    (href : mapIndex cafData "cafRefNo" = Value.str ref)
    (hzone : mapIndex cafData "zoneCode" = Value.str zone)
    (hfresh : recordsFor w.db ref = 0)
    (hseq : ∀ c ∈ w.db.cafs, c.ID < w.db.seq)
    (hprov : env.callPyIOTA w.requests pc = Except.ok v)
    (hstart : env.startProcessInstance (w.requests ++ [Request.callPyIOTA pc]) "cafOnboarding"
      [("cafId", Value.uint w.db.seq), ("cafRefNo", Value.str ref)] = Except.ok i)
    (st : main.Store) (dvars dcafData : GoMap) (hrno : String) (agent : Bool)
    (hddata : mapIndex dvars "cafData" = Value.map dcafData)
    (hdplan : mapIndex dcafData "plan_code" = Value.str pc)
    (hdusim : Contains (ToUpper pc) "USIM" = true)
    (hdref : mapIndex dcafData "caf_ref_no" = Value.str ref)
    (hdpos : mapIndex dcafData "pos_hrno" = Value.str hrno)
    (hdzone : mapIndex dcafData "zone_code" = Value.str zone)
    (hdagent : mapIndex dcafData "is_agent" = Value.bool agent)
    (hdfresh : main.recordsFor st ref = 0) :
    ((services.ValidateAndInsertCaf env w vars).2.2 = Outcome.ok () ∧
        (services.ValidateAndInsertCaf env w vars).2.1 =
          mapSet vars "cafData" (Value.map (mapSet cafData "permanentImsi" (Value.str v))) ∧
        (services.ValidateAndInsertCaf env w vars).1.requests = w.requests ++
          [Request.callPyIOTA pc,
           Request.startProcessInstance "cafOnboarding"
            [("cafId", Value.uint w.db.seq), ("cafRefNo", Value.str ref)]] ∧
        ∃ row : models.Caf,
          (services.ValidateAndInsertCaf env w vars).1.db.cafs = w.db.cafs ++ [row] ∧
            row.ID = w.db.seq ∧ row.CafRefNo = ref ∧ row.ZoneCode = zone ∧
            row.ProcessInstanceId = i ∧ row.Status ≠ "STARTED") ∧
      main.Step1ProcessKafkaCAF st dvars =
        some ({ cafs := st.cafs ++
                  [{ ID := st.seq, CafRefNo := ref, PlanCode := pc, IsUsim := true,
                     PosHrno := hrno, ZoneCode := zone, IsAgent := agent,
                     Status := "PENDING_APPROVAL", CurrentStep := 1,
                     PermanentImsi := { String := "IMSI-MOCK", Valid := true } }]
                seq := st.seq + 1 },
          mapSet (mapSet dvars "cafId" (Value.uint st.seq)) "cafRefNo" (Value.str ref)) := by
  refine ⟨?_, Step1_fresh_usim st dvars dcafData ref pc hrno zone agent hddata hdplan hdusim
    hdref hdpos hdzone hdagent hdfresh⟩
  rw [ValidateAndInsertCaf_fresh_usim env w vars cafData ref pc zone v i hdata husim hplan href
    hzone hfresh hseq hprov hstart]
  have hne : ("" : String) ≠ "STARTED" := by decide
  exact ⟨rfl, rfl, rfl, ⟨_, rfl, rfl, rfl, rfl, rfl, hne⟩⟩

theorem first_ingestion_witness :
    ((services.ValidateAndInsertCaf envSample {} sampleServiceVars).2.2 = Outcome.ok () ∧
        (services.ValidateAndInsertCaf envSample {} sampleServiceVars).2.1 =
          mapSet sampleServiceVars "cafData"
            (Value.map (mapSet sampleCafData "permanentImsi" (Value.str "IMSI-999"))) ∧
        (services.ValidateAndInsertCaf envSample {} sampleServiceVars).1.requests =
          ({} : services.World).requests ++
          [Request.callPyIOTA "USIM-PREMIUM",
           Request.startProcessInstance "cafOnboarding"
            [("cafId", Value.uint ({} : services.World).db.seq),
             ("cafRefNo", Value.str "CAF-1")]] ∧
        ∃ row : models.Caf,
          (services.ValidateAndInsertCaf envSample {} sampleServiceVars).1.db.cafs =
              ({} : services.World).db.cafs ++ [row] ∧
            row.ID = ({} : services.World).db.seq ∧ row.CafRefNo = "CAF-1" ∧
            row.ZoneCode = "Z1" ∧ row.ProcessInstanceId = "pi-1" ∧ row.Status ≠ "STARTED") ∧
      main.Step1ProcessKafkaCAF {} sampleVars =
        some ({ cafs := ({} : main.Store).cafs ++
                  [{ ID := ({} : main.Store).seq, CafRefNo := "CAF-1", PlanCode := "USIM-PREMIUM",
                     IsUsim := true, PosHrno := "HR-7", ZoneCode := "Z1", IsAgent := false,
                     Status := "PENDING_APPROVAL", CurrentStep := 1,
                     PermanentImsi := { String := "IMSI-MOCK", Valid := true } }]
                seq := ({} : main.Store).seq + 1 },
          mapSet (mapSet sampleVars "cafId" (Value.uint ({} : main.Store).seq)) "cafRefNo"
            (Value.str "CAF-1")) :=
  first_ingestion envSample {} sampleServiceVars sampleCafData "CAF-1" "USIM-PREMIUM" "Z1"
    "IMSI-999" "pi-1" (by rfl) (by rfl) (by rfl) (by rfl) (by rfl) (by decide)
    (by intro c hc; cases hc) (by rfl) (by rfl)
    {} sampleVars sampleEventPos "HR-7" false (by rfl) (by rfl) (by decide) (by rfl) (by rfl)
    (by rfl) (by rfl) (by decide)

end Onboarding
